import Mathlib

/-!
Verification development for the dreamgen image-generation repository.

This file gives a shallow embedding, in Lean, of the generator layer of the
repository: the `GenerationResult` record and the `ImageGenerator` lifecycle
from `src/generators/base_generator.py`, the Z-Image adapter from
`src/generators/zimage_generator.py` (model loading, seeded generation,
artifact saving), and the factory from `src/generators/factory.py`.

Machine integers are embedded as `Nat` with explicit reduction modulo `2^32`
or `2^64` where the source relies on fixed-width arithmetic (the MD5 prompt
hash).  Fallible operations are embedded as `Except`.  External effects
(filesystem probes, Python module imports, the torch RNG draw, the wall
clock) are passed in explicitly as values, so every definition is executable.
-/

/-! ## Embedding of Python library primitives used by the source -/

/-- Decimal digit character, as produced by Python `str(int)` formatting:
`digitChar d` is the character for digit `d < 10`. -/
def digitChar (d : Nat) : Char := Char.ofNat (48 + d)

/-- Digits of `n` in base 10, most significant first, with structural fuel
(the fuel argument strictly dominates the number of division steps); embeds
Python `str(n)` for a non-negative `n`. -/
def natDigitsAux : Nat → Nat → List Char → List Char
  | 0, _, acc => acc
  | fuel + 1, n, acc =>
    if n < 10 then digitChar n :: acc
    else natDigitsAux fuel (n / 10) (digitChar (n % 10) :: acc)

/-- Digits of `n` in base 10, most significant first. -/
def natDigits (n : Nat) : List Char := natDigitsAux (n + 1) n []

/-- Python `str(n)` for a natural number. -/
def natStr (n : Nat) : String := String.mk (natDigits n)

/-- Python `f"{n:02d}"`: decimal, zero-padded on the left to width 2. -/
def pad2 (n : Nat) : String := if n < 10 then "0" ++ natStr n else natStr n

/-- Python `strftime` `%m`/`%d`-style two-digit field is `pad2`; the `%Y`
field prints the year, zero-padded to 4 digits. -/
def pad4 (n : Nat) : String :=
  if n < 10 then "000" ++ natStr n
  else if n < 100 then "00" ++ natStr n
  else if n < 1000 then "0" ++ natStr n
  else natStr n

/-- Lowercase hex digit character, as in Python `bytes.hex()` /
`hashlib.hexdigest()`: digits `0`-`9` then letters `a`-`f`. -/
def hexChar (n : Nat) : Char :=
  if n < 10 then Char.ofNat (48 + n) else Char.ofNat (87 + n)

/-- ASCII lowercasing of one character, embedding Python `str.lower` on the
ASCII range (the only range the factory selector strings use). -/
def lowerChar (c : Char) : Char :=
  if 'A' ≤ c ∧ c ≤ 'Z' then Char.ofNat (c.toNat + 32) else c

/-- Python `str.lower` on an ASCII string. -/
def strLower (s : String) : String := String.mk (s.data.map lowerChar)

/-- UTF-8 encoding of one Unicode scalar value (Python `str.encode("utf-8")`,
per character). -/
def utf8Enc (c : Nat) : List Nat :=
  if c < 128 then [c]
  else if c < 2048 then
    [192 + c / 64, 128 + c % 64]
  else if c < 65536 then
    [224 + c / 4096, 128 + (c / 64) % 64, 128 + c % 64]
  else
    [240 + c / 262144, 128 + (c / 4096) % 64, 128 + (c / 64) % 64, 128 + c % 64]

/-- Python `prompt.encode()` — the UTF-8 byte sequence of a string, bytes as
naturals below 256. -/
def strBytes (s : String) : List Nat := s.data.flatMap (fun c => utf8Enc c.toNat)

/-! ## MD5 (embedding of `hashlib.md5`, RFC 1321), over `Nat` mod `2^32` -/

/-- The 64 MD5 sine-derived round constants. -/
def md5K : List Nat :=
  [0xd76aa478, 0xe8c7b756, 0x242070db, 0xc1bdceee,
   0xf57c0faf, 0x4787c62a, 0xa8304613, 0xfd469501,
   0x698098d8, 0x8b44f7af, 0xffff5bb1, 0x895cd7be,
   0x6b901122, 0xfd987193, 0xa679438e, 0x49b40821,
   0xf61e2562, 0xc040b340, 0x265e5a51, 0xe9b6c7aa,
   0xd62f105d, 0x02441453, 0xd8a1e681, 0xe7d3fbc8,
   0x21e1cde6, 0xc33707d6, 0xf4d50d87, 0x455a14ed,
   0xa9e3e905, 0xfcefa3f8, 0x676f02d9, 0x8d2a4c8a,
   0xfffa3942, 0x8771f681, 0x6d9d6122, 0xfde5380c,
   0xa4beea44, 0x4bdecfa9, 0xf6bb4b60, 0xbebfbc70,
   0x289b7ec6, 0xeaa127fa, 0xd4ef3085, 0x04881d05,
   0xd9d4d039, 0xe6db99e5, 0x1fa27cf8, 0xc4ac5665,
   0xf4292244, 0x432aff97, 0xab9423a7, 0xfc93a039,
   0x655b59c3, 0x8f0ccc92, 0xffeff47d, 0x85845dd1,
   0x6fa87e4f, 0xfe2ce6e0, 0xa3014314, 0x4e0811a1,
   0xf7537e82, 0xbd3af235, 0x2ad7d2bb, 0xeb86d391]

/-- The 64 MD5 per-round left-rotation amounts. -/
def md5S : List Nat :=
  [7, 12, 17, 22, 7, 12, 17, 22, 7, 12, 17, 22, 7, 12, 17, 22,
   5, 9, 14, 20, 5, 9, 14, 20, 5, 9, 14, 20, 5, 9, 14, 20,
   4, 11, 16, 23, 4, 11, 16, 23, 4, 11, 16, 23, 4, 11, 16, 23,
   6, 10, 15, 21, 6, 10, 15, 21, 6, 10, 15, 21, 6, 10, 15, 21]

/-- 32-bit left rotation of `x < 2^32` by `n ≤ 32`. -/
def rotl32 (x n : Nat) : Nat := ((x <<< n) ||| (x >>> (32 - n))) % 4294967296

/-- Little-endian byte decomposition of `n` into `k` bytes. -/
def leBytes (n k : Nat) : List Nat := (List.range k).map (fun i => (n >>> (8 * i)) &&& 255)

/-- MD5 message padding: append `0x80`, zero bytes up to 56 mod 64, then the
original bit length modulo `2^64` as 8 little-endian bytes. -/
def md5Pad (msg : List Nat) : List Nat :=
  let len := msg.length
  let zeros := (120 - (len + 1) % 64) % 64
  msg ++ [128] ++ List.replicate zeros 0 ++ leBytes ((len * 8) % 18446744073709551616) 8

/-- Split a byte list into 64-byte chunks, with structural fuel (the fuel
argument dominates the number of chunks). -/
def chunks64Aux : Nat → List Nat → List (List Nat)
  | 0, _ => []
  | fuel + 1, l =>
    if l = [] then [] else l.take 64 :: chunks64Aux fuel (l.drop 64)

/-- Split a byte list into 64-byte chunks. -/
def chunks64 (l : List Nat) : List (List Nat) := chunks64Aux (l.length + 1) l

/-- The 16 little-endian 32-bit message words of one 64-byte MD5 chunk. -/
def words16 (chunk : List Nat) : List Nat :=
  (List.range 16).map (fun j =>
    chunk.getD (4 * j) 0 + 256 * chunk.getD (4 * j + 1) 0 +
    65536 * chunk.getD (4 * j + 2) 0 + 16777216 * chunk.getD (4 * j + 3) 0)

/-- One MD5 round `i` (0 ≤ i < 64) on state `(A, B, C, D)` with message
words `M`. -/
def md5Round (M : List Nat) (st : Nat × Nat × Nat × Nat) (i : Nat) :
    Nat × Nat × Nat × Nat :=
  let A := st.1; let B := st.2.1; let C := st.2.2.1; let D := st.2.2.2
  let mask := 4294967295
  let FG : Nat × Nat :=
    if i < 16 then ((B &&& C) ||| ((B ^^^ mask) &&& D), i)
    else if i < 32 then ((D &&& B) ||| ((D ^^^ mask) &&& C), (5 * i + 1) % 16)
    else if i < 48 then (B ^^^ C ^^^ D, (3 * i + 5) % 16)
    else (C ^^^ (B ||| (D ^^^ mask)), (7 * i) % 16)
  let Fv := (FG.1 + A + md5K.getD i 0 + M.getD FG.2 0) % 4294967296
  (D, (B + rotl32 Fv (md5S.getD i 0)) % 4294967296, B, C)

/-- Process one 64-byte chunk: 64 rounds, then add into the running state
(all mod `2^32`). -/
def md5Chunk (st : Nat × Nat × Nat × Nat) (chunk : List Nat) :
    Nat × Nat × Nat × Nat :=
  let M := words16 chunk
  let e := (List.range 64).foldl (md5Round M) st
  ((st.1 + e.1) % 4294967296, (st.2.1 + e.2.1) % 4294967296,
   (st.2.2.1 + e.2.2.1) % 4294967296, (st.2.2.2 + e.2.2.2) % 4294967296)

/-- The 16 MD5 digest bytes of a byte message. -/
def md5Bytes (msg : List Nat) : List Nat :=
  let st := (chunks64 (md5Pad msg)).foldl md5Chunk
    (0x67452301, 0xefcdab89, 0x98badcfe, 0x10325476)
  leBytes st.1 4 ++ leBytes st.2.1 4 ++ leBytes st.2.2.1 4 ++ leBytes st.2.2.2 4

/-- Two lowercase hex characters of one byte, as in `hexdigest`. -/
def byteHex (b : Nat) : List Char := [hexChar (b / 16), hexChar (b % 16)]

/-- The 32 characters of `hashlib.md5(bytes).hexdigest()`. -/
def md5HexChars (msg : List Nat) : List Char := (md5Bytes msg).flatMap byteHex

/-- `hashlib.md5(prompt.encode()).hexdigest()[:8]` — the 8-character prompt
hash used in artifact filenames. -/
def promptHash8 (prompt : String) : String :=
  String.mk ((md5HexChars (strBytes prompt)).take 8)

/-! ## Path manipulation (embedding of `pathlib.PurePosixPath` operations) -/

/-- Index of the last occurrence of `c` in a character list, if any. -/
def lastIdxOf (c : Char) : List Char → Option Nat
  | [] => none
  | a :: as =>
    match lastIdxOf c as with
    | some i => some (i + 1)
    | none => if a = c then some 0 else none

/-- `pathlib.Path.with_suffix`: replace (or, when the final component has no
suffix, append) the suffix of the final path component.  A dot at position 0
of the name does not start a suffix (hidden-file rule). -/
def withSuffix (p suf : String) : String :=
  let chars := p.data
  let split : List Char × List Char :=
    match lastIdxOf '/' chars with
    | none => ([], chars)
    | some i => (chars.take (i + 1), chars.drop (i + 1))
  let name := split.2
  let stem :=
    match lastIdxOf '.' name with
    | some i => if i = 0 then name else name.take i
    | none => name
  String.mk (split.1 ++ (stem ++ suf.data))

/-! ## Data model (from `src/generators/base_generator.py` and config use) -/

/-- The `config.image` settings consumed by the generators. -/
structure ImageConfig where
  height : Nat
  width : Nat
deriving DecidableEq, Repr

/-- The `config.system` settings consumed by the generators. -/
structure SystemConfig where
  output_dir : String
  cpu_only : Bool
deriving DecidableEq, Repr

/-- The `config.model` settings consumed by the Z-Image generator and the
factory. -/
structure ModelConfig where
  image_model : String
  zimage_model_path : String
  zimage_attention : String
  zimage_compile : Bool
deriving DecidableEq, Repr

/-- The configuration object handed to generators. -/
structure Config where
  model : ModelConfig
  image : ImageConfig
  system : SystemConfig
deriving DecidableEq, Repr

/-- The metadata dict built by `ZImageGenerator.generate`. -/
structure Metadata where
  model : String
  model_path : String
  height : Nat
  width : Nat
  steps : Nat
  guidance_scale : ℚ
  attention_backend : String
  compiled : Bool
  device : String
deriving DecidableEq, Repr

/-- `GenerationResult` dataclass from `base_generator.py`. -/
structure GenerationResult where
  image_path : String
  prompt : String
  model : String
  seed : Nat
  steps : Nat
  metadata : Metadata
deriving DecidableEq, Repr

/-- Device-selection inputs: the torch availability probes, external to the
repository, passed in as values (`torch.cuda.is_available()`,
`torch.backends.mps.is_available()`). -/
structure DeviceEnv where
  cudaAvailable : Bool
  mpsAvailable : Bool
deriving DecidableEq, Repr

/-- `ImageGenerator._get_device`: explicit CPU-only configuration wins, then
cuda, then mps, else cpu; evaluated once at construction. -/
def get_device (cfg : Config) (env : DeviceEnv) : String :=
  if cfg.system.cpu_only then "cpu"
  else if env.cudaAvailable then "cuda"
  else if env.mpsAvailable then "mps"
  else "cpu"

/-- The mutable lifecycle state of one `ZImageGenerator` instance.
`components` is the heavy loaded state (`self.components`); we track each
distinct allocation performed by `load_from_local_dir` with a fresh
identifier, and `allocCount` counts how many heavy allocations this instance
has performed in total.  `pipe` is the base-class field (never populated by
the Z-Image adapter).  `attention` records the process-wide attention
backend installed by `set_attention_backend`. -/
structure GenState where
  components : Option Nat
  allocCount : Nat
  pipe : Option Nat
  attention : Option String
deriving DecidableEq, Repr

/-- The freshly constructed generator state (`__init__`: `self.components =
None`, base `__init__`: `self.pipe = None`). -/
def initState : GenState :=
  { components := none, allocCount := 0, pipe := none, attention := none }

/-- External-world facts that decide the fallible steps of the Z-Image
adapter: whether `ref-repos/Z-Image/src` exists, what path it resolves to,
whether the `utils` / `zimage` imports succeed once that path is on
`sys.path`, and whether the weights directory `model_path` exists. -/
structure ZEnv where
  sourcePresent : Bool
  zimageSrcPath : String
  importUtilsOk : Bool
  importZimageOk : Bool
  weightsPresent : Bool
deriving DecidableEq, Repr

/-- Python exception kinds raised by the embedded code paths. -/
inductive PyError where
  | importError (msg : String)
  | fileNotFound (msg : String)
  | valueError (msg : String)
deriving DecidableEq, Repr

/-- The `ImportError` message of `ZImageGenerator._get_zimage_src_path` when
the Z-Image source tree is absent. -/
def srcNotFoundMsg (env : ZEnv) : String :=
  "Z-Image source not found at " ++ env.zimageSrcPath ++
  ". Clone Z-Image repo: git clone https://github.com/Tongyi-MAI/Z-Image ref-repos/Z-Image"

/-- `ZImageGenerator._get_zimage_src_path`: returns the source path when the
tree exists, else raises `ImportError` with the remediation command. -/
def get_zimage_src_path (env : ZEnv) : Except PyError String :=
  if env.sourcePresent then .ok env.zimageSrcPath
  else .error (.importError (srcNotFoundMsg env))

/-- The `FileNotFoundError` message of `ZImageGenerator.load_model` when the
weights directory is absent. -/
def weightsNotFoundMsg (cfg : Config) : String :=
  "Z-Image model not found at " ++ cfg.model.zimage_model_path ++
  ". Download from HuggingFace: huggingface-cli download Tongyi-MAI/Z-Image-Turbo --local-dir <path>"

/-- The state after `load_from_local_dir` plus `set_attention_backend`: a
fresh heavy allocation (identified by the running counter) is bound to
`self.components`, and the configured attention backend is installed. -/
def loadedState (cfg : Config) (s : GenState) : GenState :=
  { s with
    components := some s.allocCount,
    allocCount := s.allocCount + 1,
    attention := some cfg.model.zimage_attention }

/-- `ZImageGenerator.load_model`, as a state transition.  It resolves the
source path (ImportError if absent), imports the Z-Image utilities
(re-raising their ImportError), checks the weights path (FileNotFoundError
if absent), and then unconditionally calls `load_from_local_dir`, binding a
fresh heavy allocation to `self.components`, and installs the configured
attention backend.  There is no early return when `components` is already
populated. -/
def load_model (env : ZEnv) (cfg : Config) (s : GenState) : Except PyError GenState :=
  match get_zimage_src_path env with
  | .error e => .error e
  | .ok _ =>
    if !env.importUtilsOk then
      .error (.importError "Failed to import Z-Image utilities")
    else if !env.weightsPresent then
      .error (.fileNotFound (weightsNotFoundMsg cfg))
    else
      .ok (loadedState cfg s)

/-- `ZImageGenerator.cleanup`: drops every component reference, sets
`self.components = None`, and runs the base-class cleanup (`self.pipe =
None` plus allocator cache release, a pure no-op on our state). -/
def cleanup (s : GenState) : GenState :=
  { s with components := none, pipe := none }

/-! ## `generate` and `_save_image` (from `zimage_generator.py`) -/

/-- The wall-clock instant `datetime.now()` observed by `_save_image`,
together with its ISO week number (`now.isocalendar()[1]`, computed by the
Python standard library, external to the repository). -/
structure DateTime where
  year : Nat
  month : Nat
  day : Nat
  hour : Nat
  minute : Nat
  second : Nat
  isoWeek : Nat
deriving DecidableEq, Repr

/-- `now.strftime("%Y%m%d_%H%M%S")`. -/
def timestampStr (now : DateTime) : String :=
  pad4 now.year ++ pad2 now.month ++ pad2 now.day ++ "_" ++
  pad2 now.hour ++ pad2 now.minute ++ pad2 now.second

/-- The two filesystem writes performed by `_save_image`: the image path and
the sibling prompt file with its exact content. -/
structure SaveResult where
  imagePath : String
  promptPath : String
  promptContent : String
deriving DecidableEq, Repr

/-- `ZImageGenerator._save_image`: `<output_dir>/<year>/week_<NN>/` with the
ISO week zero-padded to two digits, filename
`image_<YYYYMMDD_HHMMSS>_<md5(prompt)[:8]>.png`, and a sibling `.txt` file
(`output_path.with_suffix(".txt")`) holding exactly the prompt.  The `seed`
parameter is accepted but unused by the source.  Directory creation and the
actual pixel write are filesystem effects with no further data content. -/
def save_image (cfg : Config) (now : DateTime) (prompt : String) (seed : Nat) :
    SaveResult :=
  let year_dir := cfg.system.output_dir ++ "/" ++ natStr now.year
  let week_dir := year_dir ++ "/week_" ++ pad2 now.isoWeek
  let filename := "image_" ++ timestampStr now ++ "_" ++ promptHash8 prompt ++ ".png"
  let output_path := week_dir ++ "/" ++ filename
  { imagePath := output_path,
    promptPath := withSuffix output_path ".txt",
    promptContent := prompt }

/-- The deterministic pseudo-random generator state handed to the sampler:
`torch.Generator(device=self.device).manual_seed(seed)` is a pure function
of the device and the seed. -/
structure TorchGenerator where
  device : String
  seed : Nat
deriving DecidableEq, Repr

/-- The exact argument tuple with which `zimage.generate` (the underlying
sampler, external to the repository) is invoked. -/
structure SamplerCall where
  prompt : String
  height : Nat
  width : Nat
  num_inference_steps : Nat
  guidance_scale : ℚ
  generator : TorchGenerator
deriving DecidableEq, Repr

/-- Caller-side arguments of `ZImageGenerator.generate`. -/
structure GenerateArgs where
  prompt : String
  negative_prompt : Option String := none
  height : Option Nat := none
  width : Option Nat := none
  num_inference_steps : Option Nat := none
  guidance_scale : Option ℚ := none
  seed : Option Nat := none
deriving DecidableEq, Repr

/-- Python `x or default` on an optional non-negative integer: `None` and
`0` are falsy, any other value is kept. -/
def orDefault (x : Option Nat) (d : Nat) : Nat :=
  match x with
  | none => d
  | some n => if n = 0 then d else n

/-- Everything observable about one successful `generate` call: the state
after it, the warning-level log events it emitted, the sampler invocation,
the files written, and the returned `GenerationResult`. -/
structure GenOutcome where
  state : GenState
  warnings : List String
  sampler : SamplerCall
  save : SaveResult
  result : GenerationResult
deriving DecidableEq, Repr

/-- The warning text logged when a negative prompt is supplied. -/
def negPromptWarning : String :=
  "Z-Image Turbo doesn't use negative prompts, ignoring negative_prompt parameter"

/-- The successful body of `ZImageGenerator.generate`, from the defaults
block to the returned `GenerationResult`, given the post-load state `s1`:
truthiness defaults for height/width (config) and steps (fixed 8); seed
from the caller or else the external `torch.randint(0, 2**32, (1,))` draw
`r`; `guidance_scale` reassigned to `0.0` unconditionally; one warning for
a truthy negative prompt; a fresh seeded per-call torch generator; the
sampler invocation; the saved artifacts; and the result record. -/
def generateBody (cfg : Config) (device : String) (s1 : GenState)
    (now : DateTime) (r : Nat) (args : GenerateArgs) : GenOutcome :=
  let height := orDefault args.height cfg.image.height
  let width := orDefault args.width cfg.image.width
  let steps := orDefault args.num_inference_steps 8
  let seed := match args.seed with
    | some sd => sd
    | none => r % 4294967296
  let guidance : ℚ := 0
  let warnings : List String := match args.negative_prompt with
    | some np => if np = "" then [] else [negPromptWarning]
    | none => []
  let generator : TorchGenerator := { device := device, seed := seed }
  let sampler : SamplerCall :=
    { prompt := args.prompt, height := height, width := width,
      num_inference_steps := steps, guidance_scale := guidance,
      generator := generator }
  let save := save_image cfg now args.prompt seed
  let metadata : Metadata :=
    { model := "Z-Image-Turbo",
      model_path := cfg.model.zimage_model_path,
      height := height, width := width, steps := steps,
      guidance_scale := guidance,
      attention_backend := cfg.model.zimage_attention,
      compiled := cfg.model.zimage_compile,
      device := device }
  { state := s1, warnings := warnings, sampler := sampler,
    save := save,
    result := { image_path := save.imagePath, prompt := args.prompt,
                model := "zimage", seed := seed, steps := steps,
                metadata := metadata } }

/-- `ZImageGenerator.generate`, embedded.  `device` is the instance's
immutable device string, `now` the wall clock observed at save time, and
`r` the external draw of `torch.randint(0, 2**32, (1,)).item()` (reduced
into `[0, 2^32)` as the torch call guarantees), consumed only when the
caller omits `seed`.  The source: lazily loads when `components` is `None`;
re-resolves the source path and imports `zimage.generate`; applies
truthiness defaults for height/width/steps; resolves the seed; pins
`guidance_scale = 0.0`; warns once on a truthy negative prompt; seeds a
fresh torch generator; runs the sampler off-loop; saves the image and
prompt sidecar; and returns a fully populated `GenerationResult`. -/
def generate (env : ZEnv) (cfg : Config) (device : String) (s : GenState)
    (now : DateTime) (r : Nat) (args : GenerateArgs) :
    Except PyError GenOutcome :=
  match (if s.components = none then load_model env cfg s else .ok s) with
  | .error e => .error e
  | .ok s1 =>
    match get_zimage_src_path env with
    | .error e => .error e
    | .ok _ =>
      if !env.importZimageOk then
        .error (.importError "cannot import name generate from zimage")
      else
        .ok (generateBody cfg device s1 now r args)

/-! ## Factory (from `src/generators/factory.py`) -/

/-- The generator value returned by `get_image_generator`. -/
inductive GeneratorInstance where
  | mock
  | flux
  | zimage (model_path attention : String) (compile_model : Bool) (state : GenState)
deriving DecidableEq, Repr

/-- External import facts for the factory: whether the Python statement
`from .zimage_generator import ZImageGenerator` succeeds.  That module's
top-level imports are `asyncio`, `gc`, `hashlib`, `sys`, `datetime`,
`pathlib`, `typing`, `torch`, `loguru` and `.base_generator` — none touch
the Z-Image source tree, so this flag is independent of
`ZEnv.sourcePresent`. -/
structure FactoryEnv where
  zimageModuleImportOk : Bool
deriving DecidableEq, Repr

/-- The `ImportError` message raised by the factory when importing the
adapter module fails. -/
def factoryImportErrMsg : String :=
  "Z-Image not available. Clone Z-Image repo to ref-repos/Z-Image"

/-- The `ValueError` message for an unknown selector `m` (already
lower-cased). -/
def unknownModelMsg (m : String) : String :=
  "Unknown image model type: " ++ m ++ ". Expected 'flux' or 'zimage', got '" ++ m ++ "'"

/-- `get_image_generator(config, mock)`: mock wins unconditionally; the
lower-cased selector dispatches to the Z-Image adapter (converting a failed
adapter-module import into `ImportError` with the remediation string), to
the FLUX adapter, or raises `ValueError` echoing the invalid value and the
accepted set.  Constructing `ZImageGenerator(config)` only copies
configuration fields; it performs no source probing or loading. -/
def get_image_generator (cfg : Config) (mock : Bool) (fenv : FactoryEnv) :
    Except PyError GeneratorInstance :=
  if mock then .ok .mock
  else
    let model_type := strLower cfg.model.image_model
    if model_type = "zimage" then
      if fenv.zimageModuleImportOk then
        .ok (.zimage cfg.model.zimage_model_path cfg.model.zimage_attention
          cfg.model.zimage_compile initState)
      else
        .error (.importError factoryImportErrMsg)
    else if model_type = "flux" then
      .ok .flux
    else
      .error (.valueError (unknownModelMsg model_type))

/-! ## Fixtures and auxiliary predicates -/

/-- A character that can appear in a generated filename stem: neither the
suffix separator nor the path separator. -/
def plainChar (c : Char) : Bool := c ≠ '.' && c ≠ '/'

/-- The sixteen lowercase hexadecimal digit characters. -/
def hexDigits : List Char := "0123456789abcdef".data

/-- All external preconditions of a successful Z-Image load and generation:
source tree present, both dynamic imports succeed, weights directory
present. -/
def envReady (env : ZEnv) : Prop :=
  env.sourcePresent = true ∧ env.importUtilsOk = true ∧
  env.importZimageOk = true ∧ env.weightsPresent = true

/-- Concrete environment: everything available. -/
def envC : ZEnv :=
  { sourcePresent := true, zimageSrcPath := "/proj/ref-repos/Z-Image/src",
    importUtilsOk := true, importZimageOk := true, weightsPresent := true }

/-- Concrete environment: the Z-Image source tree is absent (every other
dependency available). -/
def envNoSrc : ZEnv :=
  { sourcePresent := false, zimageSrcPath := "/proj/ref-repos/Z-Image/src",
    importUtilsOk := true, importZimageOk := true, weightsPresent := true }

/-- Concrete configuration selecting the Z-Image backend. -/
def cfgC : Config :=
  { model := { image_model := "zimage", zimage_model_path := "/models/zimage",
               zimage_attention := "_flash", zimage_compile := false },
    image := { height := 1024, width := 768 },
    system := { output_dir := "/out", cpu_only := false } }

/-- Concrete configuration with an unknown backend selector. -/
def cfgBogus : Config :=
  { cfgC with model := { cfgC.model with image_model := "bogus" } }

/-- A concrete wall-clock instant in ISO week 40 of 2025
(Thursday 2025-10-02 13:05:09). -/
def nowC : DateTime :=
  { year := 2025, month := 10, day := 2, hour := 13, minute := 5, second := 9,
    isoWeek := 40 }

/-! ## Helper lemmas: the generate machinery -/

theorem load_model_ok (env : ZEnv) (cfg : Config) (s : GenState)
    (h1 : env.sourcePresent = true) (h2 : env.importUtilsOk = true)
    (h4 : env.weightsPresent = true) :
    load_model env cfg s = .ok (loadedState cfg s) := by
  simp [load_model, get_zimage_src_path, h1, h2, h4]

theorem generate_eq_ok (env : ZEnv) (cfg : Config) (device : String)
    (s : GenState) (now : DateTime) (r : Nat) (args : GenerateArgs)
    (h : envReady env) :
    generate env cfg device s now r args =
      .ok (generateBody cfg device
        (if s.components = none then loadedState cfg s else s) now r args) := by
  obtain ⟨h1, h2, h3, h4⟩ := h
  by_cases hc : s.components = none <;>
    simp [generate, hc, load_model, get_zimage_src_path, h1, h2, h3, h4]

theorem generate_ok_inv {env : ZEnv} {cfg : Config} {device : String}
    {s : GenState} {now : DateTime} {r : Nat} {args : GenerateArgs}
    {o : GenOutcome}
    (h : generate env cfg device s now r args = .ok o) :
    ∃ s1, o = generateBody cfg device s1 now r args := by
  unfold generate at h
  cases hm : (if s.components = none then load_model env cfg s else Except.ok s) with
  | error e => rw [hm] at h; cases h
  | ok s1 =>
    rw [hm] at h
    cases hp : get_zimage_src_path env with
    | error e => rw [hp] at h; cases h
    | ok _ =>
      rw [hp] at h
      by_cases hz : env.importZimageOk
      · simp [hz] at h
        exact ⟨s1, h.symm⟩
      · simp [hz] at h

/-! ## Helper lemmas: characters and digits -/

theorem digitChar_plain (d : Nat) (h : d < 10) : plainChar (digitChar d) = true := by
  interval_cases d <;> decide

theorem natDigitsAux_plain (fuel : Nat) :
    ∀ (n : Nat) (acc : List Char), (∀ c ∈ acc, plainChar c = true) →
    ∀ c ∈ natDigitsAux fuel n acc, plainChar c = true := by
  induction fuel with
  | zero => intro n acc hacc c hc; exact hacc c hc
  | succ fuel ih =>
    intro n acc hacc c hc
    unfold natDigitsAux at hc
    split at hc
    · rcases List.mem_cons.mp hc with rfl | hmem
      · exact digitChar_plain n (by omega)
      · exact hacc c hmem
    · refine ih (n / 10) _ ?_ c hc
      intro c' hc'
      rcases List.mem_cons.mp hc' with rfl | hmem
      · exact digitChar_plain (n % 10) (Nat.mod_lt n (by omega))
      · exact hacc c' hmem

theorem natStr_plain (n : Nat) : ∀ c ∈ (natStr n).data, plainChar c = true := by
  intro c hc
  exact natDigitsAux_plain (n + 1) n [] (by intro c h; cases h) c hc

theorem mem_append_strings {a b : String} {c : Char}
    (h : c ∈ (a ++ b).data) : c ∈ a.data ∨ c ∈ b.data := by
  rw [String.data_append] at h
  exact List.mem_append.mp h

theorem pad2_plain (n : Nat) : ∀ c ∈ (pad2 n).data, plainChar c = true := by
  intro c hc
  unfold pad2 at hc
  split at hc
  · rcases mem_append_strings hc with h | h
    · cases h with
      | head => decide
      | tail _ hm => cases hm
    · exact natStr_plain n c h
  · exact natStr_plain n c hc

theorem pad4_plain (n : Nat) : ∀ c ∈ (pad4 n).data, plainChar c = true := by
  have hz : ∀ c ∈ ("000" : String).data, plainChar c = true := by decide
  have hz2 : ∀ c ∈ ("00" : String).data, plainChar c = true := by decide
  have hz1 : ∀ c ∈ ("0" : String).data, plainChar c = true := by decide
  intro c hc
  unfold pad4 at hc
  split at hc
  · rcases mem_append_strings hc with h | h
    · exact hz c h
    · exact natStr_plain n c h
  · split at hc
    · rcases mem_append_strings hc with h | h
      · exact hz2 c h
      · exact natStr_plain n c h
    · split at hc
      · rcases mem_append_strings hc with h | h
        · exact hz1 c h
        · exact natStr_plain n c h
      · exact natStr_plain n c hc

theorem timestampStr_plain (now : DateTime) :
    ∀ c ∈ (timestampStr now).data, plainChar c = true := by
  have hu : ∀ c ∈ ("_" : String).data, plainChar c = true := by decide
  intro c hc
  unfold timestampStr at hc
  rcases mem_append_strings hc with h | h
  case _ =>
    rcases mem_append_strings h with h | h
    case _ =>
      rcases mem_append_strings h with h | h
      case _ =>
        rcases mem_append_strings h with h | h
        case _ =>
          rcases mem_append_strings h with h | h
          case _ =>
            rcases mem_append_strings h with h | h
            · exact pad4_plain now.year c h
            · exact pad2_plain now.month c h
          case _ => exact pad2_plain now.day c h
        case _ => exact hu c h
      case _ => exact pad2_plain now.hour c h
    case _ => exact pad2_plain now.minute c h
  case _ => exact pad2_plain now.second c h

/-! ## Helper lemmas: hex digest characters and length -/

theorem hexChar_mem_hexDigits (n : Nat) (h : n < 16) : hexChar n ∈ hexDigits := by
  interval_cases n <;> decide

theorem hexDigits_plain : ∀ c ∈ hexDigits, plainChar c = true := by decide

theorem leBytes_lt (n k : Nat) : ∀ b ∈ leBytes n k, b < 256 := by
  intro b hb
  unfold leBytes at hb
  obtain ⟨i, _, rfl⟩ := List.mem_map.mp hb
  have : (n >>> (8 * i)) &&& 255 ≤ 255 := Nat.and_le_right
  omega

theorem md5Bytes_lt (msg : List Nat) : ∀ b ∈ md5Bytes msg, b < 256 := by
  intro b hb
  unfold md5Bytes at hb
  rcases List.mem_append.mp hb with h | h
  · rcases List.mem_append.mp h with h | h
    · rcases List.mem_append.mp h with h | h
      · exact leBytes_lt _ 4 b h
      · exact leBytes_lt _ 4 b h
    · exact leBytes_lt _ 4 b h
  · exact leBytes_lt _ 4 b h

theorem byteHex_mem_hexDigits (b : Nat) (hb : b < 256) :
    ∀ c ∈ byteHex b, c ∈ hexDigits := by
  intro c hc
  unfold byteHex at hc
  have h1 : b / 16 < 16 := by omega
  have h2 : b % 16 < 16 := Nat.mod_lt b (by omega)
  rcases List.mem_cons.mp hc with rfl | hc
  · exact hexChar_mem_hexDigits _ h1
  · rcases List.mem_cons.mp hc with rfl | hc
    · exact hexChar_mem_hexDigits _ h2
    · cases hc

theorem md5HexChars_mem (msg : List Nat) :
    ∀ c ∈ md5HexChars msg, c ∈ hexDigits := by
  intro c hc
  unfold md5HexChars at hc
  obtain ⟨b, hb, hcb⟩ := List.mem_flatMap.mp hc
  exact byteHex_mem_hexDigits b (md5Bytes_lt msg b hb) c hcb

theorem leBytes_length (n k : Nat) : (leBytes n k).length = k := by
  simp [leBytes]

theorem md5Bytes_length (msg : List Nat) : (md5Bytes msg).length = 16 := by
  simp [md5Bytes, leBytes_length]

theorem flatMap_byteHex_length (l : List Nat) :
    (l.flatMap byteHex).length = 2 * l.length := by
  induction l with
  | nil => simp
  | cons b bs ih => simp [byteHex, ih]; omega

theorem md5HexChars_length (msg : List Nat) : (md5HexChars msg).length = 32 := by
  unfold md5HexChars
  rw [flatMap_byteHex_length, md5Bytes_length]

theorem promptHash8_data (p : String) :
    (promptHash8 p).data = (md5HexChars (strBytes p)).take 8 := rfl

theorem promptHash8_length (p : String) : (promptHash8 p).data.length = 8 := by
  rw [promptHash8_data, List.length_take, md5HexChars_length]
  decide

theorem promptHash8_mem (p : String) :
    ∀ c ∈ (promptHash8 p).data, c ∈ hexDigits := by
  intro c hc
  rw [promptHash8_data] at hc
  exact md5HexChars_mem _ c (List.take_subset 8 _ hc)

theorem promptHash8_plain (p : String) :
    ∀ c ∈ (promptHash8 p).data, plainChar c = true := by
  intro c hc
  exact hexDigits_plain c (promptHash8_mem p c hc)

/-! ## Helper lemmas: `with_suffix` on generated filenames -/

theorem lastIdxOf_eq_none {c : Char} : ∀ {l : List Char}, c ∉ l → lastIdxOf c l = none := by
  intro l
  induction l with
  | nil => intro; rfl
  | cons a as ih =>
    intro h
    have ha : a ≠ c := fun e => h (e ▸ List.mem_cons_self a as)
    have has : c ∉ as := fun e => h (List.mem_cons_of_mem a e)
    simp [lastIdxOf, ih has, ha]

theorem lastIdxOf_append_cons (c : Char) (l r : List Char) (h : c ∉ r) :
    lastIdxOf c (l ++ c :: r) = some l.length := by
  induction l with
  | nil => simp [lastIdxOf, lastIdxOf_eq_none h]
  | cons a as ih => simp [lastIdxOf, ih]

theorem strData_eq {a b : String} (h : a.data = b.data) : a = b := by
  cases a; cases b; exact congrArg String.mk h

theorem withSuffix_png (dir base : String)
    (hb : ∀ c ∈ base.data, plainChar c = true) (hne : base.data ≠ []) :
    withSuffix (dir ++ "/" ++ base ++ ".png") ".txt" = dir ++ "/" ++ base ++ ".txt" := by
  have hslash : '/' ∉ base.data ++ ('.' :: ['p', 'n', 'g']) := by
    intro h
    rcases List.mem_append.mp h with h | h
    · have := hb _ h; simp [plainChar] at this
    · revert h; decide
  have hdot : '.' ∉ (['p', 'n', 'g'] : List Char) := by decide
  have hdata : (dir ++ "/" ++ base ++ ".png").data =
      dir.data ++ '/' :: (base.data ++ '.' :: ['p', 'n', 'g']) := by
    simp [String.data_append]
  have h1 : lastIdxOf '/' (dir.data ++ '/' :: (base.data ++ '.' :: ['p', 'n', 'g'])) =
      some dir.data.length := lastIdxOf_append_cons '/' dir.data _ hslash
  have h2 : (dir.data ++ '/' :: (base.data ++ '.' :: ['p', 'n', 'g'])).take
      (dir.data.length + 1) = dir.data ++ ['/'] := by
    rw [List.take_append 1]; rfl
  have h3 : (dir.data ++ '/' :: (base.data ++ '.' :: ['p', 'n', 'g'])).drop
      (dir.data.length + 1) = base.data ++ '.' :: ['p', 'n', 'g'] := by
    rw [List.drop_append 1]; rfl
  have h4 : lastIdxOf '.' (base.data ++ '.' :: ['p', 'n', 'g']) =
      some base.data.length := lastIdxOf_append_cons '.' base.data _ hdot
  have h5 : (base.data ++ '.' :: ['p', 'n', 'g']).take base.data.length = base.data :=
    List.take_left base.data _
  have hlen : base.data.length ≠ 0 := fun e => hne (List.eq_nil_of_length_eq_zero e)
  unfold withSuffix
  rw [hdata]
  simp only [h1, h2, h3, h4, h5, if_neg hlen]
  apply strData_eq
  simp [String.data_append]

/-! ## Claim theorems -/

/-- C2: two `generate` calls that supply the same seed and the same other
parameters on the same device construct the same deterministic pseudo-random
generator state (`torch.Generator(device=self.device).manual_seed(seed)`)
to feed into the underlying sampler, whatever the external RNG draw and
wall clock of each run; that state is exactly the device paired with the
caller's seed. -/
theorem generate_same_seed_same_generator_state
    (env : ZEnv) (cfg : Config) (device : String) (s : GenState)
    (now1 now2 : DateTime) (r1 r2 : Nat) (args : GenerateArgs) (sd : Nat)
    (hseed : args.seed = some sd) (o1 o2 : GenOutcome)
    (h1 : generate env cfg device s now1 r1 args = .ok o1)
    (h2 : generate env cfg device s now2 r2 args = .ok o2) :
    o1.sampler.generator = o2.sampler.generator ∧
    o1.sampler.generator = { device := device, seed := sd } := by
  obtain ⟨s1, rfl⟩ := generate_ok_inv h1
  obtain ⟨s2, rfl⟩ := generate_ok_inv h2
  constructor <;> simp [generateBody, hseed]

/-- Arguments used by the C2 witness: seed supplied by the caller. -/
def argsSeeded : GenerateArgs := { prompt := "A red cube", seed := some 42 }

/-- C2 witness: concrete two-run agreement with different RNG draws. -/
theorem generate_same_seed_same_generator_state_witness :
    (generateBody cfgC "cuda" (loadedState cfgC initState) nowC 3 argsSeeded).sampler.generator =
      (generateBody cfgC "cuda" (loadedState cfgC initState) nowC 5 argsSeeded).sampler.generator ∧
    (generateBody cfgC "cuda" (loadedState cfgC initState) nowC 3 argsSeeded).sampler.generator =
      { device := "cuda", seed := 42 } :=
  generate_same_seed_same_generator_state envC cfgC "cuda" initState nowC nowC 3 5
    argsSeeded 42 rfl
    (generateBody cfgC "cuda" (loadedState cfgC initState) nowC 3 argsSeeded)
    (generateBody cfgC "cuda" (loadedState cfgC initState) nowC 5 argsSeeded) rfl rfl

/-- C3: when the caller omits the seed, the returned result carries the
externally drawn seed reduced into `[0, 2^32)`, and exactly that value is
the one with which the sampler's torch generator is seeded. -/
theorem generate_omitted_seed_resolved
    (env : ZEnv) (cfg : Config) (device : String) (s : GenState)
    (now : DateTime) (r : Nat) (args : GenerateArgs) (o : GenOutcome)
    (hseed : args.seed = none)
    (h : generate env cfg device s now r args = .ok o) :
    o.result.seed < 2 ^ 32 ∧ o.sampler.generator.seed = o.result.seed := by
  obtain ⟨s1, rfl⟩ := generate_ok_inv h
  refine ⟨?_, by simp [generateBody, hseed]⟩
  simp only [generateBody, hseed]
  show r % 4294967296 < 2 ^ 32
  exact Nat.mod_lt r (by norm_num)

/-- Arguments used by the C3 witness: no caller seed. -/
def argsNoSeed : GenerateArgs := { prompt := "A red cube" }

/-- C3 witness: concrete unseeded call. -/
theorem generate_omitted_seed_resolved_witness :
    (generateBody cfgC "cuda" (loadedState cfgC initState) nowC 77 argsNoSeed).result.seed < 2 ^ 32 ∧
    (generateBody cfgC "cuda" (loadedState cfgC initState) nowC 77 argsNoSeed).sampler.generator.seed =
      (generateBody cfgC "cuda" (loadedState cfgC initState) nowC 77 argsNoSeed).result.seed :=
  generate_omitted_seed_resolved envC cfgC "cuda" initState nowC 77 argsNoSeed
    (generateBody cfgC "cuda" (loadedState cfgC initState) nowC 77 argsNoSeed) rfl rfl

/-- C7: a non-empty negative prompt never raises: generation completes and
emits exactly one warning-level event (the ignore-and-warn log line). -/
theorem generate_negative_prompt_warns_once
    (env : ZEnv) (cfg : Config) (device : String) (s : GenState)
    (now : DateTime) (r : Nat) (args : GenerateArgs) (np : String)
    (hnp : args.negative_prompt = some np) (hne : np ≠ "") (h : envReady env) :
    ∃ o, generate env cfg device s now r args = .ok o ∧
      o.warnings = [negPromptWarning] ∧ o.warnings.length = 1 := by
  refine ⟨_, generate_eq_ok env cfg device s now r args h, ?_, ?_⟩ <;>
    simp [generateBody, hnp, hne]

/-- Arguments used by the C7 witness: non-empty negative prompt. -/
def argsNegPrompt : GenerateArgs := { prompt := "p", negative_prompt := some "x" }

/-- C7 witness: concrete call with `negative_prompt="x"`. -/
theorem generate_negative_prompt_warns_once_witness :
    ∃ o, generate envC cfgC "cuda" initState nowC 0 argsNegPrompt = .ok o ∧
      o.warnings = [negPromptWarning] ∧ o.warnings.length = 1 :=
  generate_negative_prompt_warns_once envC cfgC "cuda" initState nowC 0 argsNegPrompt
    "x" rfl (by decide) ⟨rfl, rfl, rfl, rfl⟩

/-- Arguments with a caller-supplied guidance override and no negative
prompt. -/
def argsGuidance : GenerateArgs := { prompt := "p", guidance_scale := some (7 / 2 : ℚ) }

/-- C6 counterexample: a concrete call supplying a guidance override
completes with an empty warning list — the override is silently discarded
(the sampler still receives guidance 0), not downgraded to a warning-level
event as the claim states. -/
theorem generate_guidance_override_emits_no_warning_counterexample :
    generate envC cfgC "cuda" initState nowC 0 argsGuidance =
      .ok (generateBody cfgC "cuda" (loadedState cfgC initState) nowC 0 argsGuidance) ∧
    (generateBody cfgC "cuda" (loadedState cfgC initState) nowC 0 argsGuidance).warnings = [] ∧
    (generateBody cfgC "cuda" (loadedState cfgC initState) nowC 0
      argsGuidance).sampler.guidance_scale = 0 :=
  ⟨rfl, rfl, rfl⟩

/-- C6 (amended): a caller-supplied guidance_scale is accepted but silently
ignored — the entire observable outcome of `generate` is independent of it,
the sampler is always invoked with guidance scale `0.0`, and no warning is
emitted on its account (with no negative prompt the warning list is empty
even when a guidance override was supplied); it is never raised as an
error. -/
theorem generate_guidance_ignored_silently
    (env : ZEnv) (cfg : Config) (device : String) (s : GenState)
    (now : DateTime) (r : Nat) (args : GenerateArgs) (g g' : Option ℚ) :
    generate env cfg device s now r { args with guidance_scale := g } =
      generate env cfg device s now r { args with guidance_scale := g' } ∧
    (∀ o, generate env cfg device s now r args = .ok o →
      o.sampler.guidance_scale = 0 ∧
      (args.negative_prompt = none → o.warnings = [])) := by
  refine ⟨rfl, ?_⟩
  intro o h
  obtain ⟨s1, rfl⟩ := generate_ok_inv h
  exact ⟨by simp [generateBody], fun hnp => by simp [generateBody, hnp]⟩

/-- Python-truthiness fallback never returns 0 when the default is
nonzero. -/
theorem orDefault_ne_zero (x : Option Nat) (d : Nat) (hd : d ≠ 0) :
    orDefault x d ≠ 0 := by
  cases x with
  | none => exact hd
  | some n =>
    by_cases hn : n = 0 <;> simp [orDefault, hn, hd]

/-- C10: passing `0` for height, width or num_inference_steps is treated
exactly like omitting it (Python `or` tests truthiness, so `0` falls back
to the config default, resp. the fixed 8-step default), the sampler never
receives a zero step count, and — whenever the configuration defaults are
nonzero — never a zero height or width either. -/
theorem generate_zero_params_fall_back_to_defaults
    (env : ZEnv) (cfg : Config) (device : String) (s : GenState)
    (now : DateTime) (r : Nat) (args : GenerateArgs) :
    (generate env cfg device s now r { args with height := some 0 } =
      generate env cfg device s now r { args with height := none }) ∧
    (generate env cfg device s now r { args with width := some 0 } =
      generate env cfg device s now r { args with width := none }) ∧
    (generate env cfg device s now r { args with num_inference_steps := some 0 } =
      generate env cfg device s now r { args with num_inference_steps := none }) ∧
    (∀ o, generate env cfg device s now r args = .ok o →
      o.sampler.num_inference_steps ≠ 0 ∧
      (cfg.image.height ≠ 0 → o.sampler.height ≠ 0) ∧
      (cfg.image.width ≠ 0 → o.sampler.width ≠ 0)) := by
  refine ⟨rfl, rfl, rfl, ?_⟩
  intro o h
  obtain ⟨s1, rfl⟩ := generate_ok_inv h
  refine ⟨?_, fun hh => ?_, fun hw => ?_⟩
  · show orDefault args.num_inference_steps 8 ≠ 0
    exact orDefault_ne_zero _ 8 (by decide)
  · show orDefault args.height cfg.image.height ≠ 0
    exact orDefault_ne_zero _ _ hh
  · show orDefault args.width cfg.image.width ≠ 0
    exact orDefault_ne_zero _ _ hw

/-- A loaded generator state fixture: one allocation already performed. -/
def stLoaded : GenState :=
  { components := some 5, allocCount := 7, pipe := none, attention := some "_flash" }

/-- C8: after `cleanup()` the generator is back in the unloaded state, and a
subsequent `generate()` lazily reloads (one fresh heavy allocation) and
completes with a fully populated result — no stuck-unloaded state. -/
theorem cleanup_then_generate_reloads
    (env : ZEnv) (cfg : Config) (device : String) (s : GenState)
    (now : DateTime) (r : Nat) (args : GenerateArgs) (h : envReady env) :
    (cleanup s).components = none ∧
    ∃ o, generate env cfg device (cleanup s) now r args = .ok o ∧
      o.state.components = some s.allocCount ∧
      o.state.allocCount = s.allocCount + 1 ∧
      o.result.prompt = args.prompt ∧
      o.result.model = "zimage" ∧
      o.result.seed = (match args.seed with
        | some sd => sd
        | none => r % 4294967296) ∧
      o.result.image_path = o.save.imagePath ∧
      o.save.promptContent = args.prompt := by
  refine ⟨rfl, _, generate_eq_ok env cfg device (cleanup s) now r args h,
    ?_, ?_, rfl, rfl, rfl, rfl, rfl⟩ <;>
    simp [generateBody, cleanup, loadedState]

/-- C8 witness: concrete cleanup-then-generate round trip on a loaded
generator. -/
theorem cleanup_then_generate_reloads_witness :
    (cleanup stLoaded).components = none ∧
    ∃ o, generate envC cfgC "cuda" (cleanup stLoaded) nowC 9 argsNoSeed = .ok o ∧
      o.state.components = some stLoaded.allocCount ∧
      o.state.allocCount = stLoaded.allocCount + 1 ∧
      o.result.prompt = argsNoSeed.prompt ∧
      o.result.model = "zimage" ∧
      o.result.seed = (match argsNoSeed.seed with
        | some sd => sd
        | none => 9 % 4294967296) ∧
      o.result.image_path = o.save.imagePath ∧
      o.save.promptContent = argsNoSeed.prompt :=
  cleanup_then_generate_reloads envC cfgC "cuda" stLoaded nowC 9 argsNoSeed
    ⟨rfl, rfl, rfl, rfl⟩

/-- The state after one `load_model` on a fresh generator with everything
available. -/
def stOnce : GenState :=
  { components := some 0, allocCount := 1, pipe := none, attention := some "_flash" }

/-- The state after a second `load_model` without intervening cleanup. -/
def stTwice : GenState :=
  { components := some 1, allocCount := 2, pipe := none, attention := some "_flash" }

/-- C1 counterexample: on a fresh generator, a direct second `load_model`
call without an intervening `cleanup` is not a no-op — it performs a second
heavy allocation (`load_from_local_dir` is called unconditionally) and
rebinds the loaded state to the new allocation, so the loaded state does
not stay unchanged. -/
theorem load_model_second_call_reallocates_counterexample :
    load_model envC cfgC initState = .ok stOnce ∧
    load_model envC cfgC stOnce = .ok stTwice ∧
    stTwice.components ≠ stOnce.components ∧
    stTwice.allocCount = 2 := by
  refine ⟨rfl, rfl, ?_, rfl⟩
  decide

/-- C1 (amended): `load_model` itself has no idempotence guard — with the
external dependencies available, a second call without intervening cleanup
always succeeds but performs a fresh heavy allocation and rebinds
`self.components` to it, leaving the loaded state changed; only `generate`'s
lazy-load path is guarded (it calls `load_model` solely when `components`
is `None`), so a `generate` on an already-loaded generator performs no new
allocation and leaves the state untouched. -/
theorem load_model_reloads_generate_lazy_guarded
    (env : ZEnv) (cfg : Config) (s s1 : GenState) (h : envReady env)
    (hload : load_model env cfg s = .ok s1) :
    load_model env cfg s1 = .ok (loadedState cfg s1) ∧
    (loadedState cfg s1).allocCount = s1.allocCount + 1 ∧
    (loadedState cfg s1).components ≠ s1.components ∧
    (∀ device now r args o, generate env cfg device s1 now r args = .ok o →
      o.state = s1) := by
  obtain ⟨h1, h2, h3, h4⟩ := h
  rw [load_model_ok env cfg s h1 h2 h4] at hload
  cases hload
  refine ⟨load_model_ok env cfg _ h1 h2 h4, rfl, ?_, ?_⟩
  · simp [loadedState]
  · intro device now r args o hgen
    rw [generate_eq_ok env cfg device _ now r args ⟨h1, h2, h3, h4⟩] at hgen
    have hc : (loadedState cfg s).components = some s.allocCount := rfl
    simp only [hc] at hgen
    cases hgen
    rfl

/-- C1 witness: the amended statement instantiated on a fresh generator,
with the lazy-load clause applied to a concrete generate call. -/
theorem load_model_reloads_generate_lazy_guarded_witness :
    load_model envC cfgC stOnce = .ok (loadedState cfgC stOnce) ∧
    (loadedState cfgC stOnce).allocCount = stOnce.allocCount + 1 ∧
    (loadedState cfgC stOnce).components ≠ stOnce.components ∧
    (generateBody cfgC "cuda" stOnce nowC 0 argsNoSeed).state = stOnce :=
  have t := load_model_reloads_generate_lazy_guarded envC cfgC initState stOnce
    ⟨rfl, rfl, rfl, rfl⟩ rfl
  ⟨t.1, t.2.1, t.2.2.1,
    t.2.2.2 "cuda" nowC 0 argsNoSeed
      (generateBody cfgC "cuda" stOnce nowC 0 argsNoSeed) rfl⟩

/-- C5 counterexample: with the Z-Image source tree absent (`envNoSrc`) but
the adapter module importable, the factory call for selector `"zimage"`
returns a generator instead of raising — the factory never consults the
source tree (it is not an input of `get_image_generator` in the source);
the remediation-bearing error is raised only later, by `load_model`. -/
theorem factory_zimage_absent_source_returns_ok_counterexample :
    get_image_generator cfgC false { zimageModuleImportOk := true } =
      .ok (.zimage "/models/zimage" "_flash" false initState) ∧
    load_model envNoSrc cfgC initState =
      .error (.importError (srcNotFoundMsg envNoSrc)) := by
  constructor
  · rfl
  · rfl

/-- C5 (amended): the factory raises its ImportError (with the literal
remediation string) only when importing the adapter module itself fails;
any selector outside the accepted set raises ValueError echoing the
(lower-cased) invalid value and the accepted set; and the
ModelUnavailable-kind error for an absent Z-Image source tree — whose
message carries the clone remediation command — is raised by `load_model`,
not by the factory. -/
theorem factory_error_behavior
    (cfg : Config) (fenv : FactoryEnv) (m : String)
    (hm : strLower cfg.model.image_model = m) :
    (m = "zimage" → fenv.zimageModuleImportOk = false →
      get_image_generator cfg false fenv = .error (.importError factoryImportErrMsg)) ∧
    (m ≠ "zimage" → m ≠ "flux" →
      get_image_generator cfg false fenv = .error (.valueError (unknownModelMsg m)) ∧
      (∃ p q, (unknownModelMsg m).data = p ++ m.data ++ q) ∧
      (∃ p q, (unknownModelMsg m).data =
        p ++ ("Expected 'flux' or 'zimage'" : String).data ++ q)) ∧
    (∀ env : ZEnv, env.sourcePresent = false → ∀ s,
      load_model env cfg s = .error (.importError (srcNotFoundMsg env)) ∧
      ∃ p q, (srcNotFoundMsg env).data = p ++
        ("Clone Z-Image repo: git clone https://github.com/Tongyi-MAI/Z-Image ref-repos/Z-Image" : String).data ++ q) := by
  refine ⟨?_, ?_, ?_⟩
  · intro hz himp
    subst hz
    simp [get_image_generator, hm, himp]
  · intro hz hf
    refine ⟨by simp [get_image_generator, hm, hz, hf], ?_, ?_⟩
    · refine ⟨("Unknown image model type: " : String).data,
        (". Expected 'flux' or 'zimage', got '" ++ m ++ "'" : String).data, ?_⟩
      simp [unknownModelMsg, String.data_append, List.append_assoc]
    · refine ⟨("Unknown image model type: " : String).data ++ m.data ++ (". " : String).data,
        (", got '" ++ m ++ "'" : String).data, ?_⟩
      have hsplit : ((". Expected 'flux' or 'zimage', got '" : String)).data =
        (". " : String).data ++ ("Expected 'flux' or 'zimage'" : String).data ++
          (", got '" : String).data := by decide
      simp [unknownModelMsg, String.data_append, List.append_assoc, hsplit]
  · intro env hsrc s
    constructor
    · simp [load_model, get_zimage_src_path, hsrc]
    · refine ⟨("Z-Image source not found at " : String).data ++ env.zimageSrcPath.data ++
        (". " : String).data, [], ?_⟩
      have hsplit : ((". Clone Z-Image repo: git clone https://github.com/Tongyi-MAI/Z-Image ref-repos/Z-Image" : String)).data =
        (". " : String).data ++
          ("Clone Z-Image repo: git clone https://github.com/Tongyi-MAI/Z-Image ref-repos/Z-Image" : String).data := by decide
      simp [srcNotFoundMsg, String.data_append, List.append_assoc, hsplit]

/-- C5 witness: the amended statement applied to the concrete selectors
`"bogus"` (unknown) and `"zimage"` (module import failing, and source tree
absent). -/
theorem factory_error_behavior_witness :
    get_image_generator cfgBogus false { zimageModuleImportOk := true } =
      .error (.valueError (unknownModelMsg "bogus")) ∧
    get_image_generator cfgC false { zimageModuleImportOk := false } =
      .error (.importError factoryImportErrMsg) ∧
    load_model envNoSrc cfgC initState =
      .error (.importError (srcNotFoundMsg envNoSrc)) ∧
    (∃ p q, (unknownModelMsg "bogus").data = p ++ ("bogus" : String).data ++ q) ∧
    (∃ p q, (srcNotFoundMsg envNoSrc).data = p ++
      ("Clone Z-Image repo: git clone https://github.com/Tongyi-MAI/Z-Image ref-repos/Z-Image" : String).data ++ q) :=
  have tb := factory_error_behavior cfgBogus { zimageModuleImportOk := true } "bogus" (by decide)
  have tz := factory_error_behavior cfgC { zimageModuleImportOk := false } "zimage" (by decide)
  have tz2 := factory_error_behavior cfgC { zimageModuleImportOk := true } "zimage" (by decide)
  have hb := tb.2.1 (by decide) (by decide)
  have hs := tz2.2.2 envNoSrc rfl initState
  ⟨hb.1, tz.1 rfl rfl, hs.1, hb.2.1, hs.2⟩

/-- Left flank of an append is in the way of emptiness. -/
theorem str_append_ne_nil_left (a b : String) (ha : a.data ≠ []) :
    (a ++ b).data ≠ [] := by
  rw [String.data_append]
  intro h
  exact ha (List.append_eq_nil.mp h).1

/-- Every character of the generated filename stem
`image_<timestamp>_<hash>` is neither a dot nor a slash. -/
theorem filename_base_plain (now : DateTime) (prompt : String) :
    ∀ c ∈ ("image_" ++ timestampStr now ++ "_" ++ promptHash8 prompt).data,
      plainChar c = true := by
  have himg : ∀ c ∈ ("image_" : String).data, plainChar c = true := by decide
  have hund : ∀ c ∈ ("_" : String).data, plainChar c = true := by decide
  intro c hc
  rcases mem_append_strings hc with h | h
  · rcases mem_append_strings h with h | h
    · rcases mem_append_strings h with h | h
      · exact himg c h
      · exact timestampStr_plain now c h
    · exact hund c h
  · exact promptHash8_plain prompt c h

/-- The generated filename stem is nonempty. -/
theorem filename_base_ne (now : DateTime) (prompt : String) :
    ("image_" ++ timestampStr now ++ "_" ++ promptHash8 prompt).data ≠ [] :=
  str_append_ne_nil_left _ _ (str_append_ne_nil_left _ _
    (str_append_ne_nil_left _ _ (by decide)))

/-- Reassociation of the saved path. -/
theorem path_regroup (dir base : String) :
    dir ++ "/" ++ (base ++ ".png") = dir ++ "/" ++ base ++ ".png" := by
  apply strData_eq
  simp [String.data_append, List.append_assoc]

/-- The two artifact paths produced by `_save_image`, in stem-plus-suffix
form: the image path is the stem followed by `.png`, and the sidecar path —
computed in the source by `with_suffix(".txt")` — is the same stem followed
by `.txt`. -/
theorem save_image_stem (cfg : Config) (now : DateTime) (prompt : String) (seed : Nat) :
    (save_image cfg now prompt seed).imagePath =
      cfg.system.output_dir ++ "/" ++ natStr now.year ++ "/week_" ++ pad2 now.isoWeek ++
        "/" ++ ("image_" ++ timestampStr now ++ "_" ++ promptHash8 prompt) ++ ".png" ∧
    (save_image cfg now prompt seed).promptPath =
      cfg.system.output_dir ++ "/" ++ natStr now.year ++ "/week_" ++ pad2 now.isoWeek ++
        "/" ++ ("image_" ++ timestampStr now ++ "_" ++ promptHash8 prompt) ++ ".txt" := by
  have him : (save_image cfg now prompt seed).imagePath =
      (cfg.system.output_dir ++ "/" ++ natStr now.year ++ "/week_" ++ pad2 now.isoWeek) ++
        "/" ++ ("image_" ++ timestampStr now ++ "_" ++ promptHash8 prompt) ++ ".png" :=
    path_regroup _ _
  refine ⟨him, ?_⟩
  have hp : (save_image cfg now prompt seed).promptPath =
      withSuffix ((cfg.system.output_dir ++ "/" ++ natStr now.year ++ "/week_" ++
        pad2 now.isoWeek) ++ "/" ++
        ("image_" ++ timestampStr now ++ "_" ++ promptHash8 prompt) ++ ".png") ".txt" :=
    congrArg (fun p => withSuffix p ".txt") (path_regroup _ _)
  rw [hp, withSuffix_png _ _ (filename_base_plain now prompt) (filename_base_ne now prompt)]

/-- C4: the prompt sidecar round-trips — the file written next to the image
holds exactly the prompt string passed to `generate` (unchanged), and its
path is the image path's sibling with the same stem and a `.txt`
extension. -/
theorem generate_prompt_sidecar_roundtrip
    (env : ZEnv) (cfg : Config) (device : String) (s : GenState)
    (now : DateTime) (r : Nat) (args : GenerateArgs) (o : GenOutcome)
    (h : generate env cfg device s now r args = .ok o) :
    o.save.promptContent = args.prompt ∧
    o.result.image_path = o.save.imagePath ∧
    o.save.promptPath = withSuffix o.save.imagePath ".txt" ∧
    ∃ stem, o.save.imagePath = stem ++ ".png" ∧ o.save.promptPath = stem ++ ".txt" := by
  obtain ⟨s1, rfl⟩ := generate_ok_inv h
  refine ⟨rfl, rfl, rfl, ?_⟩
  obtain ⟨h1, h2⟩ := save_image_stem cfg now args.prompt
    (match args.seed with
      | some sd => sd
      | none => r % 4294967296)
  exact ⟨_, h1, h2⟩

/-- C4 witness: concrete sidecar round trip. -/
theorem generate_prompt_sidecar_roundtrip_witness :
    (generateBody cfgC "cuda" (loadedState cfgC initState) nowC 0 argsSeeded).save.promptContent =
      argsSeeded.prompt ∧
    (generateBody cfgC "cuda" (loadedState cfgC initState) nowC 0 argsSeeded).result.image_path =
      (generateBody cfgC "cuda" (loadedState cfgC initState) nowC 0 argsSeeded).save.imagePath ∧
    (generateBody cfgC "cuda" (loadedState cfgC initState) nowC 0 argsSeeded).save.promptPath =
      withSuffix
        (generateBody cfgC "cuda" (loadedState cfgC initState) nowC 0 argsSeeded).save.imagePath
        ".txt" ∧
    ∃ stem,
      (generateBody cfgC "cuda" (loadedState cfgC initState) nowC 0 argsSeeded).save.imagePath =
        stem ++ ".png" ∧
      (generateBody cfgC "cuda" (loadedState cfgC initState) nowC 0 argsSeeded).save.promptPath =
        stem ++ ".txt" :=
  generate_prompt_sidecar_roundtrip envC cfgC "cuda" initState nowC 0 argsSeeded
    (generateBody cfgC "cuda" (loadedState cfgC initState) nowC 0 argsSeeded) rfl

/-- C9: the saved artifact layout —
`<output_root>/<year>/week_<NN>/image_<YYYYMMDD_HHMMSS>_<8-hex-hash>.png`
with the ISO week zero-padded to two digits and an 8-character lowercase-hex
hash derived from the prompt, plus a sibling `.txt` with identical stem; a
generation with calendar year 2025 and ISO week 40 yields a path containing
the segment `2025/week_40/`. -/
theorem save_image_artifact_layout
    (cfg : Config) (now : DateTime) (prompt : String) (seed : Nat) :
    ∃ hash : String,
      hash = promptHash8 prompt ∧
      hash.data.length = 8 ∧
      (∀ c ∈ hash.data, c ∈ hexDigits) ∧
      (save_image cfg now prompt seed).imagePath =
        cfg.system.output_dir ++ "/" ++ natStr now.year ++ "/week_" ++ pad2 now.isoWeek ++
          "/" ++ ("image_" ++ timestampStr now ++ "_" ++ hash) ++ ".png" ∧
      (save_image cfg now prompt seed).promptPath =
        cfg.system.output_dir ++ "/" ++ natStr now.year ++ "/week_" ++ pad2 now.isoWeek ++
          "/" ++ ("image_" ++ timestampStr now ++ "_" ++ hash) ++ ".txt" ∧
      (now.year = 2025 → now.isoWeek = 40 →
        ∃ p q, (save_image cfg now prompt seed).imagePath.data =
          p ++ ("2025/week_40/" : String).data ++ q) := by
  obtain ⟨h1, h2⟩ := save_image_stem cfg now prompt seed
  refine ⟨promptHash8 prompt, rfl, promptHash8_length prompt, promptHash8_mem prompt,
    h1, h2, ?_⟩
  intro hy hw
  refine ⟨cfg.system.output_dir.data ++ ("/" : String).data,
    ("image_" ++ timestampStr now ++ "_" ++ promptHash8 prompt).data ++
      (".png" : String).data, ?_⟩
  rw [h1, hy, hw]
  have hy2 : natStr 2025 = "2025" := by decide
  have hw2 : pad2 40 = "40" := by decide
  rw [hy2, hw2]
  have hmerge : ("2025" : String).data ++ ("/week_" : String).data ++
      ("40" : String).data ++ ("/" : String).data = ("2025/week_40/" : String).data := by
    decide
  rw [← hmerge]
  simp [String.data_append, List.append_assoc]

/-- C9 witness: the concrete week-40-of-2025 instant yields a path holding
the `2025/week_40/` segment. -/
theorem save_image_artifact_layout_witness :
    ∃ p q, (save_image cfgC nowC "A red cube" 0).imagePath.data =
      p ++ ("2025/week_40/" : String).data ++ q := by
  obtain ⟨hash, _, _, _, _, _, hseg⟩ := save_image_artifact_layout cfgC nowC "A red cube" 0
  exact hseg rfl rfl
